import Mathlib

/-!
Verification of the KubeOne CCM/CSI migration tasks
(`pkg/tasks/ccm_csi_migration.go`) against their specification.

The Go functions are shallowly embedded as pure Lean functions.  External
effects (the Kubernetes client `Get`/`List`/`Patch` calls, remote command
execution, the node drain controller, and the systemd status probe) are
supplied as explicit inputs: a fallible call becomes an `Except`/`Option`
value, and each successive poll observation becomes one element of a list
of "ticks" consumed by the embedded `wait.PollImmediate` loop.
-/

namespace KubeOneMigration

/-- Go `strconv.ParseBool`: `some b` when parsing succeeds with value `b`,
`none` when `ParseBool` returns an error. -/
def parseBool : String → Option Bool
  | "1" | "t" | "T" | "true" | "TRUE" | "True" => some true
  | "0" | "f" | "F" | "false" | "FALSE" | "False" => some false
  | _ => none

/-- Go map indexing `m[k]` for a `map[string]string`: the stored value, or
the zero value `""` when the key is absent (also when the map is `nil`,
modelled as the empty list). -/
def lookupDefault (m : List (String × String)) (k : String) : String :=
  match m.find? (fun p => p.1 == k) with
  | some p => p.2
  | none => ""

/-! ## Validator state (`validateExternalCloudProviderConfig`) -/

/-- The fields of `kubeoneapi.CloudProviderSpec` read by the validator.
`vsphereSet` models `Vsphere != nil`.  `csiMigrationSupported` models the
result of the `CSIMigrationSupported()` method, whose body lives outside
the migration task file; the validator only branches on its boolean
result. -/
structure CloudProviderSpec where
  external : Bool
  csiConfig : String
  vsphereSet : Bool
  csiMigrationSupported : Bool
deriving DecidableEq

/-- `kubeoneapi.StaticWorkersConfig`: the static worker host list (only its
emptiness matters to the validator; hosts are identified by hostname). -/
structure StaticWorkersConfig where
  hosts : List String
deriving DecidableEq

/-- The fields of the cluster configuration read by the validator. -/
structure KubeOneCluster where
  cloudProvider : CloudProviderSpec
  staticWorkers : StaticWorkersConfig
deriving DecidableEq

/-- `state.State.LiveCluster.CCMStatus`: the live-cluster CCM snapshot. -/
structure CCMStatus where
  inTreeCloudProviderEnabled : Bool
  externalCCMDeployed : Bool
deriving DecidableEq

/-- The slice of `state.State` read by `validateExternalCloudProviderConfig`. -/
structure ValidateState where
  cluster : KubeOneCluster
  ccmStatus : CCMStatus
  ccmMigrationComplete : Bool
deriving DecidableEq

/-- `validateExternalCloudProviderConfig` from
`pkg/tasks/ccm_csi_migration.go`: the six entry checks, evaluated in source
order, returning the first failing check's error (`some msg`) or `none`. -/
def validateExternalCloudProviderConfig (s : ValidateState) : Option String :=
  if !s.cluster.cloudProvider.external then
    some ".cloudProvider.external must be enabled to start the migration"
  else if !s.cluster.cloudProvider.csiMigrationSupported then
    some "ccm/csi migration is not supported for the specified provider"
  else if !s.ccmStatus.inTreeCloudProviderEnabled then
    some "the cluster is already running external ccm"
  else if s.ccmStatus.externalCCMDeployed && !s.ccmMigrationComplete then
    some "the ccm/csi migration is currently in progress, run command with --complete to finish it"
  else if s.cluster.cloudProvider.vsphereSet && s.cluster.cloudProvider.csiConfig == "" then
    some "the ccm/csi migration for vsphere requires providing csi configuration using .cloudProvider.csiConfig field"
  else if s.cluster.staticWorkers.hosts.length > 0 then
    some "the ccm/csi migration for cluster with static worker nodes is currently unsupported"
  else
    none

/-- The spec's view of the validator: a fixed ordered list of six checks,
each a passing condition paired with the error reported on failure. -/
def validateChecks (s : ValidateState) : List (Bool × String) :=
  [ (s.cluster.cloudProvider.external,
      ".cloudProvider.external must be enabled to start the migration"),
    (s.cluster.cloudProvider.csiMigrationSupported,
      "ccm/csi migration is not supported for the specified provider"),
    (s.ccmStatus.inTreeCloudProviderEnabled,
      "the cluster is already running external ccm"),
    (!(s.ccmStatus.externalCCMDeployed && !s.ccmMigrationComplete),
      "the ccm/csi migration is currently in progress, run command with --complete to finish it"),
    (!(s.cluster.cloudProvider.vsphereSet && s.cluster.cloudProvider.csiConfig == ""),
      "the ccm/csi migration for vsphere requires providing csi configuration using .cloudProvider.csiConfig field"),
    (s.cluster.staticWorkers.hosts.isEmpty,
      "the ccm/csi migration for cluster with static worker nodes is currently unsupported") ]

/-- Spec-side evaluation: the error of the first check in the list whose
condition fails, short-circuiting; `none` when every check passes. -/
def firstFailedCheck : List (Bool × String) → Option String
  | [] => none
  | (ok, msg) :: rest => if ok then firstFailedCheck rest else some msg

/-! ## Completion gate (`readyToCompleteMigration`) -/

/-- A dynamic-worker machine record, reduced to the kubelet flag map that
`common.GetKubeletFlags` extracts from it (a `map[string]string`). -/
structure Machine where
  kubeletFlags : List (String × String)
deriving DecidableEq

/-- `common.ExternalCloudProviderKubeletFlag`, the key looked up in the
machine's kubelet flag map. -/
def externalCloudProviderKubeletFlag : String := "ExternalCloudProvider"

/-- The loop of `readyToCompleteMigration`: `migrated` stays `true` only
if every machine's external-cloud-provider kubelet flag parses (via
`strconv.ParseBool`) as `true`; the loop breaks at the first machine whose
flag is unparseable or parses as `false`. -/
def allMachinesMigrated : List Machine → Bool
  | [] => true
  | m :: rest =>
    match parseBool (lookupDefault m.kubeletFlags externalCloudProviderKubeletFlag) with
    | some true => allMachinesMigrated rest
    | _ => false

/-- `readyToCompleteMigration` from `pkg/tasks/ccm_csi_migration.go`.  The
argument stands for the dynamic client and its `List` call: `none` when
the client is uninitialized, `some (Except.error e)` when listing machines
fails with error `e`, `some (Except.ok ms)` when it returns `ms`. -/
def readyToCompleteMigration (client : Option (Except String (List Machine))) :
    Option String :=
  match client with
  | none => some "clientset not initialized"
  | some (Except.error e) => some ("failed to list machines: " ++ e)
  | some (Except.ok machines) =>
    if allMachinesMigrated machines then none
    else some "not all machines are rolled-out or migration not started yet"

/-- A machine whose kubelet flag map binds the external-cloud-provider
flag to `v`. -/
def machineWithFlag (v : String) : Machine :=
  ⟨[(externalCloudProviderKubeletFlag, v)]⟩

/-! ## Polling (`wait.PollImmediate`) and the static pod poller -/

/-- `wait.ErrWaitTimeout` from `k8s.io/apimachinery/pkg/util/wait`. -/
def errWaitTimeout : String := "timed out waiting for the condition"

/-- `wait.PollImmediate`: the condition function runs once per tick until
the timeout.  A tick of type `α` is one observation of the polled system;
the list holds the observations available before the wall-clock timeout.
An error returned by the condition stops polling with that error; `true`
stops with success; exhausting the ticks is the timeout. -/
def pollImmediate {α : Type} (cond : α → Bool × Option String) :
    List α → Option String
  | [] => some errWaitTimeout
  | t :: ts =>
    match cond t with
    | (_, some e) => some e
    | (true, none) => none
    | (false, none) => pollImmediate cond ts

/-- One entry of `corev1.Pod.Status.Conditions`. -/
structure PodCondition where
  condType : String
  status : String
deriving DecidableEq

/-- The fields of `corev1.Pod` read by the poller: `Status.Phase` and
`Status.Conditions`. -/
structure Pod where
  phase : String
  conditions : List PodCondition
deriving DecidableEq

/-- The condition scan of `waitForStaticPodReady`: fails as soon as a
`Ready` or `ContainersReady` entry has a status other than `"True"`. -/
def podConditionsReady : List PodCondition → Bool
  | [] => true
  | c :: rest =>
    if c.condType == "Ready" && c.status != "True" then false
    else if c.condType == "ContainersReady" && c.status != "True" then false
    else podConditionsReady rest

/-- The body of the poll closure in `waitForStaticPodReady`: a failed
`Get` is not-ready (the error is intentionally ignored), a pod whose phase
is not `Running` is not-ready, and otherwise readiness is the condition
scan. -/
def staticPodCheck (fetch : Except String Pod) : Bool :=
  match fetch with
  | Except.error _ => false
  | Except.ok pod =>
    if pod.phase != "Running" then false
    else podConditionsReady pod.conditions

/-- `waitForStaticPodReady` from `pkg/tasks/ccm_csi_migration.go`.
`clientInit` models `s.DynamicClient != nil`; `ticks` holds the outcome of
the `Get` call on each poll tick.  The closure never returns an error, so
only success or timeout can end the poll. -/
def waitForStaticPodReady (clientInit : Bool)
    (staticPodName staticPodNamespace : String)
    (ticks : List (Except String Pod)) : Option String :=
  if !clientInit then some "clientset not initialized"
  else if staticPodName == "" || staticPodNamespace == "" then
    some "static pod name and namespace are required"
  else pollImmediate (fun t => (staticPodCheck t, none)) ticks

/-! ## Kubelet reconfiguration (`updateKubeletConfigInternal`) -/

/-- Bit flags of `state.SystemDStatus` consulted by the kubelet poll.
Modelled from the spec: the status word is a bitmask with distinct bits
for a running and a restarting service (the constants live in
`pkg/state`, outside the task file); only their distinctness matters. -/
def systemDStatusRunning : Nat := 32

/-- Bit flag for a restarting systemd unit (see `systemDStatusRunning`). -/
def systemDStatusRestarting : Nat := 4

/-- The poll closure of `updateKubeletConfigInternal`: a `systemdStatus`
read failure is returned as the condition's error (which stops
`wait.PollImmediate` with that error); otherwise the tick succeeds when
the status has the running bit set and the restarting bit clear. -/
def kubeletStatusCheck (t : Except String Nat) : Bool × Option String :=
  match t with
  | Except.error e => (false, some e)
  | Except.ok kubeletStatus =>
    if kubeletStatus &&& systemDStatusRunning != 0 &&
        kubeletStatus &&& systemDStatusRestarting == 0 then
      (true, none)
    else
      (false, none)

/-- The externally visible actions of `updateKubeletConfigInternal`, in
the order the function can perform them. -/
inductive KubeletStep
  | cordonStep
  | drainStep
  | runCmdStep
  | pollStep
  | uncordonStep
deriving DecidableEq

/-- The full action sequence of a successful `updateKubeletConfigInternal`
run. -/
def fullKubeletSeq : List KubeletStep :=
  [KubeletStep.cordonStep, KubeletStep.drainStep, KubeletStep.runCmdStep,
    KubeletStep.pollStep, KubeletStep.uncordonStep]

/-- Outcomes of the external calls made by `updateKubeletConfigInternal`:
the drainer's cordon and uncordon calls, the script rendering
(`scripts.CCMMigrationUpdateKubeletConfig`), the remote `RunRaw`
execution, and one `systemdStatus` observation per poll tick. -/
structure KubeletEnv where
  cordonErr : Option String
  drainErr : Option String
  renderResult : Except String String
  runErr : Option String
  pollTicks : List (Except String Nat)
  uncordonErr : Option String

/-- `updateKubeletConfigInternal` from `pkg/tasks/ccm_csi_migration.go`.
Returns the actions performed in order, whether the node is left cordoned
(unschedulable — set by a successful cordon, cleared only by a successful
uncordon), and the function's error result. -/
def updateKubeletConfigInternal (env : KubeletEnv) :
    List KubeletStep × Bool × Option String :=
  match env.cordonErr with
  | some e =>
    ([KubeletStep.cordonStep], false,
      some ("failed to cordon follower control plane node: " ++ e))
  | none =>
  match env.drainErr with
  | some e =>
    ([KubeletStep.cordonStep, KubeletStep.drainStep], true,
      some ("failed to drain follower control plane node: " ++ e))
  | none =>
  match env.renderResult with
  | Except.error e =>
    ([KubeletStep.cordonStep, KubeletStep.drainStep], true, some e)
  | Except.ok _cmd =>
  match env.runErr with
  | some e =>
    ([KubeletStep.cordonStep, KubeletStep.drainStep, KubeletStep.runCmdStep],
      true, some e)
  | none =>
  match pollImmediate kubeletStatusCheck env.pollTicks with
  | some e =>
    ([KubeletStep.cordonStep, KubeletStep.drainStep, KubeletStep.runCmdStep,
        KubeletStep.pollStep], true, some e)
  | none =>
  match env.uncordonErr with
  | some e =>
    (fullKubeletSeq, true,
      some ("failed to uncordon follower control plane node: " ++ e))
  | none => (fullKubeletSeq, false, none)

/-- A `KubeletEnv` whose external calls all succeed apart from the given
poll observations: used to examine the poll in isolation. -/
def kubeletEnvWithTicks (ticks : List (Except String Nat)) : KubeletEnv :=
  ⟨none, none, Except.ok "cmd", none, ticks, none⟩

/-! ## Manifest regeneration (`regenerateControlPlaneManifestsInternal`) -/

/-- Outcomes of the external calls made by
`regenerateControlPlaneManifestsInternal`: the script rendering
(`scripts.CCMMigrationRegenerateControlPlaneManifests`), the remote
`RunRaw` execution, the client initialization state, and the per-tick
`Get` outcomes of the two static-pod polls. -/
structure RegenEnv where
  renderResult : Except String String
  runErr : Option String
  clientInit : Bool
  apiServerTicks : List (Except String Pod)
  controllerManagerTicks : List (Except String Pod)

/-- `regenerateControlPlaneManifestsInternal` from
`pkg/tasks/ccm_csi_migration.go`, for the node with the given hostname.
Render and run errors are returned unwrapped; each static-pod wait error
is wrapped with the message the source builds with `errors.Wrapf` (the
`%s`-formatted 2-minute timeout prints as `2m0s`); the 30-second settle
sleep has no observable effect and is elided. -/
def regenerateControlPlaneManifestsInternal (hostname : String) (env : RegenEnv) :
    Option String :=
  let apiserverPodName := "kube-apiserver-" ++ hostname
  let controllerManagerPodName := "kube-controller-manager-" ++ hostname
  match env.renderResult with
  | Except.error e => some e
  | Except.ok _cmd =>
  match env.runErr with
  | some e => some e
  | none =>
  match waitForStaticPodReady env.clientInit apiserverPodName "kube-system"
      env.apiServerTicks with
  | some e => some ("API server failed to come up for 2m0s: " ++ e)
  | none =>
  match waitForStaticPodReady env.clientInit controllerManagerPodName "kube-system"
      env.controllerManagerTicks with
  | some e => some ("API server failed to come up for 2m0s: " ++ e)
  | none => none

/-- A pod observation that satisfies `staticPodCheck`: phase `Running`
with both readiness conditions `True`. -/
def healthyPod : Pod :=
  ⟨"Running", [⟨"Ready", "True"⟩, ⟨"ContainersReady", "True"⟩]⟩

/-- A `RegenEnv` in which rendering, execution and the API server rollout
all succeed but the kube-controller-manager pod never becomes ready, so
its poll times out. -/
def cmTimeoutEnv : RegenEnv :=
  ⟨Except.ok "cmd", none, true, [Except.ok healthyPod], []⟩

/-! ## Persistent volume migration (`migrateOpenStackPVs`) -/

/-- `provisionedByAnnotation` ("pv.kubernetes.io/provisioned-by"). -/
def provisionedByKey : String := "pv.kubernetes.io/provisioned-by"

/-- `provisionedByOpenStackInTreeCinder`. -/
def provisionedByOpenStackInTreeCinder : String := "kubernetes.io/cinder"

/-- `provisionedByOpenStackCSICinder`. -/
def provisionedByOpenStackCSICinder : String := "cinder.csi.openstack.org"

/-- A `corev1.PersistentVolume`, reduced to its name and annotation map
(`nil` map modelled as the empty list). -/
structure PersistentVolume where
  name : String
  anns : List (String × String)
deriving DecidableEq

/-- Go map assignment `m[k] = v`: replace the binding of `k` when present,
otherwise add it. -/
def setAnn (m : List (String × String)) (k v : String) : List (String × String) :=
  match m with
  | [] => [(k, v)]
  | (k', v') :: rest => if k' == k then (k, v) :: rest else (k', v') :: setAnn rest k v

/-- The loop filter: `pv.Annotations[provisionedByAnnotation] ==
provisionedByOpenStackInTreeCinder`. -/
def pvMatchesInTreeCinder (pv : PersistentVolume) : Bool :=
  lookupDefault pv.anns provisionedByKey == provisionedByOpenStackInTreeCinder

/-- The in-place mutation the loop performs on a matching volume:
rewrite the provisioner annotation to the CSI identifier. -/
def migratePv (pv : PersistentVolume) : PersistentVolume :=
  ⟨pv.name, setAnn pv.anns provisionedByKey provisionedByOpenStackCSICinder⟩

/-- One `Patch` request issued by the loop: the mutated object together
with the deep-copied pre-mutation baseline (`client.MergeFrom(oldPv)`). -/
structure PatchCall where
  pvName : String
  baseline : PersistentVolume
  patched : PersistentVolume
deriving DecidableEq

/-- The patch request the loop builds for a matching volume. -/
def patchCallFor (pv : PersistentVolume) : PatchCall :=
  ⟨pv.name, pv, migratePv pv⟩

/-- The error message `errors.Wrapf` builds when a patch fails (the
misspelling "persistnetvolume" is the source's). -/
def patchErrMsg (name e : String) : String :=
  "failed to patch persistnetvolume \"" ++ name ++
    "\" with annotation \"pv.kubernetes.io/provisioned-by=cinder.csi.openstack.org\": " ++ e

/-- The `for` loop of `migrateOpenStackPVs` over the listed volumes.
`patch` is the cluster accessor's `Patch` call (`none` = success).
Returns the patch requests issued, in order, and either the first
failure's wrapped error — at which point no later volume is examined — or
the final state of the listed volumes. -/
def migrateLoop (patch : PatchCall → Option String) :
    List PersistentVolume → List PatchCall × Except String (List PersistentVolume)
  | [] => ([], Except.ok [])
  | pv :: rest =>
    if pvMatchesInTreeCinder pv then
      match patch (patchCallFor pv) with
      | some e => ([patchCallFor pv], Except.error (patchErrMsg pv.name e))
      | none =>
        let tail := migrateLoop patch rest
        (patchCallFor pv :: tail.1, tail.2.map (fun pvs => migratePv pv :: pvs))
    else
      let tail := migrateLoop patch rest
      (tail.1, tail.2.map (fun pvs => pv :: pvs))

/-- `migrateOpenStackPVs` from `pkg/tasks/ccm_csi_migration.go`.  The
`client` argument models the dynamic client and its `List` call as in
`readyToCompleteMigration`. -/
def migrateOpenStackPVs (client : Option (Except String (List PersistentVolume)))
    (patch : PatchCall → Option String) :
    List PatchCall × Except String (List PersistentVolume) :=
  match client with
  | none => ([], Except.error "dynamic client is not initialized")
  | some (Except.error e) =>
    ([], Except.error ("failed to list persistentvolumes: " ++ e))
  | some (Except.ok pvs) => migrateLoop patch pvs

/-- The patch requests a fully successful run issues: one per volume
matching the in-tree Cinder filter, in list order. -/
def patchCallsOf (pvs : List PersistentVolume) : List PatchCall :=
  (pvs.filter pvMatchesInTreeCinder).map patchCallFor

/-- The final volume states after a fully successful run: matching
volumes rewritten, the rest untouched. -/
def migratedState (pvs : List PersistentVolume) : List PersistentVolume :=
  pvs.map (fun pv => if pvMatchesInTreeCinder pv then migratePv pv else pv)

/-- The scenario of the spec's end-to-end test: two volumes provisioned by
in-tree Cinder and one already provisioned by the CSI driver. -/
def scenarioPVs : List PersistentVolume :=
  [ ⟨"pv-a", [(provisionedByKey, provisionedByOpenStackInTreeCinder)]⟩,
    ⟨"pv-b", [(provisionedByKey, provisionedByOpenStackCSICinder)]⟩,
    ⟨"pv-c", [(provisionedByKey, provisionedByOpenStackInTreeCinder)]⟩ ]

/-! ## Theorems -/

/-- C1: `validateExternalCloudProviderConfig` evaluates its six checks in
the fixed order, returns the error of the first failing check, returns
`nil` iff all six checks pass, and any non-empty static-worker host list
forces a failure. -/
theorem validateStart_firstFailure (s : ValidateState) :
    validateExternalCloudProviderConfig s = firstFailedCheck (validateChecks s) ∧
    (validateExternalCloudProviderConfig s = none ↔
      (validateChecks s).all (fun c => c.1) = true) ∧
    (s.cluster.staticWorkers.hosts ≠ [] → validateExternalCloudProviderConfig s ≠ none) := by
  obtain ⟨⟨⟨ext, csiCfg, vs, sup⟩, ⟨hosts⟩⟩, ⟨intree, dep⟩, comp⟩ := s
  cases ext <;> cases sup <;> cases intree <;> cases dep <;> cases comp <;> cases vs <;>
    cases hosts <;>
      simp [validateExternalCloudProviderConfig, validateChecks, firstFailedCheck] <;>
        (try (split <;> simp))

/-- Witness for C1: a concrete state whose only defect is a non-empty
static-worker host list is rejected. -/
theorem validateStart_firstFailure_witness :
    validateExternalCloudProviderConfig
      ⟨⟨⟨true, "", false, true⟩, ⟨["w1"]⟩⟩, ⟨true, false⟩, false⟩ ≠ none :=
  (validateStart_firstFailure
      ⟨⟨⟨true, "", false, true⟩, ⟨["w1"]⟩⟩, ⟨true, false⟩, false⟩).2.2
    (by decide)

/-- The completion loop accepts a machine list exactly when every listed
machine's external-cloud-provider kubelet flag parses as boolean true. -/
theorem allMachinesMigrated_iff (ms : List Machine) :
    allMachinesMigrated ms = true ↔
      ∀ m ∈ ms,
        parseBool (lookupDefault m.kubeletFlags externalCloudProviderKubeletFlag) =
          some true := by
  induction ms with
  | nil => simp [allMachinesMigrated]
  | cons m rest ih =>
    rw [allMachinesMigrated]
    cases h : parseBool (lookupDefault m.kubeletFlags externalCloudProviderKubeletFlag) with
    | none => simp [h]
    | some b =>
      cases b
      · simp [h]
      · simp [h, ih]

/-- C2: `readyToCompleteMigration` returns `nil` iff the machine list call
succeeds and every listed machine's external-cloud-provider kubelet flag
parses as boolean `true`; a machine whose flag is unset or does not parse
as `true` yields the not-ready error; a list failure is returned wrapped. -/
theorem readyToComplete_spec :
    (∀ client, readyToCompleteMigration client = none ↔
        ∃ ms, client = some (Except.ok ms) ∧
          ∀ m ∈ ms,
            parseBool (lookupDefault m.kubeletFlags externalCloudProviderKubeletFlag) =
              some true) ∧
    (∀ ms : List Machine, ∀ m ∈ ms,
        parseBool (lookupDefault m.kubeletFlags externalCloudProviderKubeletFlag) ≠
            some true →
        readyToCompleteMigration (some (Except.ok ms)) =
          some "not all machines are rolled-out or migration not started yet") ∧
    (∀ e, readyToCompleteMigration (some (Except.error e)) =
        some ("failed to list machines: " ++ e)) := by
  refine ⟨?_, ?_, ?_⟩
  · intro client
    match client with
    | none => simp [readyToCompleteMigration]
    | some (Except.error e) => simp [readyToCompleteMigration]
    | some (Except.ok ms) =>
      rw [readyToCompleteMigration]
      by_cases h : allMachinesMigrated ms = true
      · constructor
        · intro _
          exact ⟨ms, rfl, (allMachinesMigrated_iff ms).mp h⟩
        · intro _
          simp [h]
      · have h' : allMachinesMigrated ms = false := Bool.eq_false_iff.mpr h
        simp only [h', Bool.false_eq_true, if_false]
        constructor
        · intro hc
          exact absurd hc (by simp)
        · rintro ⟨ms', hms, hall⟩
          rw [Option.some.injEq, Except.ok.injEq] at hms
          rw [← hms] at hall
          exact absurd ((allMachinesMigrated_iff ms).mpr hall) h
  · intro ms m hm hflag
    have h : allMachinesMigrated ms = false :=
      Bool.eq_false_iff.mpr fun hall =>
        hflag ((allMachinesMigrated_iff ms).mp hall m hm)
    simp [readyToCompleteMigration, h]
  · intro e
    rfl

/-- Witness for C2: a single machine whose flag reads `"false"` makes the
completion gate fail with the not-ready error. -/
theorem readyToComplete_spec_witness :
    readyToCompleteMigration (some (Except.ok [machineWithFlag "false"])) =
      some "not all machines are rolled-out or migration not started yet" :=
  readyToComplete_spec.2.1 [machineWithFlag "false"] (machineWithFlag "false")
    (by decide) (by decide)

/-- C9: every `strconv.ParseBool` spelling of true ("1", "t", "T", "TRUE",
"True", "true") counts a machine as migrated, while spellings of false,
the empty string, an unparseable string, and an absent flag all count it
as not migrated. -/
theorem parseBoolSpellings_gate :
    readyToCompleteMigration (some (Except.ok [machineWithFlag "1"])) = none ∧
    readyToCompleteMigration (some (Except.ok [machineWithFlag "t"])) = none ∧
    readyToCompleteMigration (some (Except.ok [machineWithFlag "T"])) = none ∧
    readyToCompleteMigration (some (Except.ok [machineWithFlag "TRUE"])) = none ∧
    readyToCompleteMigration (some (Except.ok [machineWithFlag "True"])) = none ∧
    readyToCompleteMigration (some (Except.ok [machineWithFlag "true"])) = none ∧
    readyToCompleteMigration (some (Except.ok [machineWithFlag "0"])) =
      some "not all machines are rolled-out or migration not started yet" ∧
    readyToCompleteMigration (some (Except.ok [machineWithFlag "f"])) =
      some "not all machines are rolled-out or migration not started yet" ∧
    readyToCompleteMigration (some (Except.ok [machineWithFlag "F"])) =
      some "not all machines are rolled-out or migration not started yet" ∧
    readyToCompleteMigration (some (Except.ok [machineWithFlag "FALSE"])) =
      some "not all machines are rolled-out or migration not started yet" ∧
    readyToCompleteMigration (some (Except.ok [machineWithFlag "False"])) =
      some "not all machines are rolled-out or migration not started yet" ∧
    readyToCompleteMigration (some (Except.ok [machineWithFlag "false"])) =
      some "not all machines are rolled-out or migration not started yet" ∧
    readyToCompleteMigration (some (Except.ok [machineWithFlag ""])) =
      some "not all machines are rolled-out or migration not started yet" ∧
    readyToCompleteMigration (some (Except.ok [machineWithFlag "yes"])) =
      some "not all machines are rolled-out or migration not started yet" ∧
    readyToCompleteMigration (some (Except.ok [(⟨[]⟩ : Machine)])) =
      some "not all machines are rolled-out or migration not started yet" := by
  decide

/-- The condition scan passes exactly when no `Ready` or `ContainersReady`
entry carries a status other than `"True"`. -/
theorem podConditionsReady_iff (cs : List PodCondition) :
    podConditionsReady cs = true ↔
      ∀ c ∈ cs,
        (c.condType = "Ready" ∨ c.condType = "ContainersReady") → c.status = "True" := by
  induction cs with
  | nil => simp [podConditionsReady]
  | cons c rest ih =>
    rw [podConditionsReady]
    rcases c with ⟨ct, st⟩
    simp only [List.mem_cons, forall_eq_or_imp]
    by_cases hst : st = "True"
    · simp [hst, ih]
    · by_cases hr : ct = "Ready"
      · simp [hr, hst]
      · by_cases hc : ct = "ContainersReady"
        · simp [hr, hc, hst]
        · simp [hr, hc, hst, ih]

/-- A poll whose condition never returns an error can only end in success
or in the wall-clock timeout. -/
theorem pollImmediate_noErr {α : Type} (check : α → Bool) (ticks : List α) :
    pollImmediate (fun t => (check t, none)) ticks = none ∨
    pollImmediate (fun t => (check t, none)) ticks = some errWaitTimeout := by
  induction ticks with
  | nil => right; rfl
  | cons t ts ih =>
    rw [pollImmediate]
    cases h : check t
    · simpa [h] using ih
    · simp [h]

/-- C3: uninitialized client or empty name/namespace fails with the
precondition error before any polling (independently of the ticks); each
tick reports ready exactly when the fetch succeeds, the phase is `Running`
and no `Ready`/`ContainersReady` condition is non-`True`; a failed fetch
continues the loop; with the preconditions satisfied the only failure
outcome is the timeout. -/
theorem waitForStaticPodReady_spec :
    (∀ (b : Bool) (n ns : String) (ticks ticks' : List (Except String Pod)),
        ¬(b = true ∧ n ≠ "" ∧ ns ≠ "") →
        (waitForStaticPodReady b n ns ticks = some "clientset not initialized" ∨
          waitForStaticPodReady b n ns ticks =
            some "static pod name and namespace are required") ∧
        waitForStaticPodReady b n ns ticks = waitForStaticPodReady b n ns ticks') ∧
    (∀ fetch : Except String Pod,
        staticPodCheck fetch = true ↔
          ∃ pod, fetch = Except.ok pod ∧ pod.phase = "Running" ∧
            ∀ c ∈ pod.conditions,
              (c.condType = "Ready" ∨ c.condType = "ContainersReady") →
                c.status = "True") ∧
    (∀ (e : String) (ts : List (Except String Pod)),
        pollImmediate (fun t => (staticPodCheck t, none)) (Except.error e :: ts) =
          pollImmediate (fun t => (staticPodCheck t, none)) ts) ∧
    (∀ (n ns : String) (ticks : List (Except String Pod)), n ≠ "" → ns ≠ "" →
        waitForStaticPodReady true n ns ticks = none ∨
        waitForStaticPodReady true n ns ticks = some errWaitTimeout) := by
  refine ⟨?_, ?_, ?_, ?_⟩
  · intro b n ns ticks ticks' h
    cases b
    · exact ⟨Or.inl rfl, rfl⟩
    · have hne : n = "" ∨ ns = "" := by
        by_contra hc
        push_neg at hc
        exact h ⟨rfl, hc.1, hc.2⟩
      constructor
      · right
        rcases hne with h1 | h1 <;> simp [waitForStaticPodReady, h1]
      · rcases hne with h1 | h1 <;> simp [waitForStaticPodReady, h1]
  · intro fetch
    cases fetch with
    | error e => simp [staticPodCheck]
    | ok pod =>
      by_cases hp : pod.phase = "Running"
      · simp [staticPodCheck, hp, podConditionsReady_iff]
      · simp [staticPodCheck, hp]
  · intro e ts
    rfl
  · intro n ns ticks hn hns
    have h1 : (n == "") = false := by simp [hn]
    have h2 : (ns == "") = false := by simp [hns]
    rw [waitForStaticPodReady]
    simp only [h1, h2, Bool.or_self, Bool.not_true, if_false]
    exact pollImmediate_noErr staticPodCheck ticks

/-- Witness for C3: with an initialized client, valid names, and no
successful observation, the poll ends in the timeout error. -/
theorem waitForStaticPodReady_spec_witness :
    waitForStaticPodReady true "kube-apiserver-node-1" "kube-system" [] = none ∨
    waitForStaticPodReady true "kube-apiserver-node-1" "kube-system" [] =
      some errWaitTimeout :=
  waitForStaticPodReady_spec.2.2.2 "kube-apiserver-node-1" "kube-system" []
    (by decide) (by decide)

/-- C8: the steps of `updateKubeletConfigInternal` run in the fixed order
cordon, drain, run-command, poll, uncordon (every trace is a prefix of
that sequence); uncordon is reached only after the four preceding steps
succeeded; after a successful cordon, any error leaves the node cordoned;
and the run succeeds iff every step, including uncordon, succeeded. -/
theorem updateKubeletConfig_order (env : KubeletEnv) :
    (∃ k, (updateKubeletConfigInternal env).1 = fullKubeletSeq.take k) ∧
    (KubeletStep.uncordonStep ∈ (updateKubeletConfigInternal env).1 →
      env.cordonErr = none ∧ env.drainErr = none ∧
      (∃ c, env.renderResult = Except.ok c) ∧ env.runErr = none ∧
      pollImmediate kubeletStatusCheck env.pollTicks = none) ∧
    (env.cordonErr = none → (updateKubeletConfigInternal env).2.2 ≠ none →
      (updateKubeletConfigInternal env).2.1 = true) ∧
    ((updateKubeletConfigInternal env).2.2 = none ↔
      (updateKubeletConfigInternal env).1 = fullKubeletSeq ∧
        env.uncordonErr = none) := by
  obtain ⟨ce, de, rr, re, pt, ue⟩ := env
  cases ce with
  | some e =>
    exact ⟨⟨1, rfl⟩, by simp [updateKubeletConfigInternal, fullKubeletSeq],
      by simp [updateKubeletConfigInternal],
      by simp [updateKubeletConfigInternal, fullKubeletSeq]⟩
  | none =>
  cases de with
  | some e =>
    exact ⟨⟨2, rfl⟩, by simp [updateKubeletConfigInternal, fullKubeletSeq],
      by simp [updateKubeletConfigInternal],
      by simp [updateKubeletConfigInternal, fullKubeletSeq]⟩
  | none =>
  cases rr with
  | error e =>
    exact ⟨⟨2, rfl⟩, by simp [updateKubeletConfigInternal, fullKubeletSeq],
      by simp [updateKubeletConfigInternal],
      by simp [updateKubeletConfigInternal, fullKubeletSeq]⟩
  | ok cmd =>
  cases re with
  | some e =>
    exact ⟨⟨3, rfl⟩, by simp [updateKubeletConfigInternal, fullKubeletSeq],
      by simp [updateKubeletConfigInternal],
      by simp [updateKubeletConfigInternal, fullKubeletSeq]⟩
  | none =>
  cases hp : pollImmediate kubeletStatusCheck pt with
  | some e =>
    exact ⟨⟨4, by simp [updateKubeletConfigInternal, hp, fullKubeletSeq]⟩,
      by simp [updateKubeletConfigInternal, hp, fullKubeletSeq],
      by simp [updateKubeletConfigInternal, hp],
      by simp [updateKubeletConfigInternal, hp, fullKubeletSeq]⟩
  | none =>
  cases ue with
  | some e =>
    exact ⟨⟨5, by simp [updateKubeletConfigInternal, hp, fullKubeletSeq]⟩,
      by simp [updateKubeletConfigInternal, hp, fullKubeletSeq],
      by simp [updateKubeletConfigInternal, hp],
      by simp [updateKubeletConfigInternal, hp, fullKubeletSeq]⟩
  | none =>
    exact ⟨⟨5, by simp [updateKubeletConfigInternal, hp, fullKubeletSeq]⟩,
      by simp [updateKubeletConfigInternal, hp, fullKubeletSeq],
      by simp [updateKubeletConfigInternal, hp],
      by simp [updateKubeletConfigInternal, hp, fullKubeletSeq]⟩

/-- Witness for C8: a drain failure after a successful cordon leaves the
node cordoned. -/
theorem updateKubeletConfig_order_witness :
    (updateKubeletConfigInternal
        ⟨none, some "pdb blocked", Except.ok "cmd", none, [], none⟩).2.1 = true :=
  (updateKubeletConfig_order
      ⟨none, some "pdb blocked", Except.ok "cmd", none, [], none⟩).2.2.1
    rfl (by decide)

/-- Counterexample to C4: a systemd status read failure on the first poll
tick makes `updateKubeletConfigInternal` return that read error, even
though a healthy observation follows — the failure is propagated rather
than treated as not-ready, and the step does not fail by timeout. -/
theorem kubeletPollError_counterexample :
    (updateKubeletConfigInternal (kubeletEnvWithTicks
        [Except.error "connection reset", Except.ok systemDStatusRunning])).2.2 =
      some "connection reset" ∧
    some "connection reset" ≠ some errWaitTimeout ∧
    (updateKubeletConfigInternal (kubeletEnvWithTicks
        [Except.error "connection reset", Except.ok systemDStatusRunning])).2.2 ≠
      none := by
  decide

/-- C4 (amended): a systemd status read failure on a poll tick is
propagated — the poll, and with it `updateKubeletConfigInternal`,
terminates immediately with that read error; absent read failures the poll
can only succeed or time out. -/
theorem kubeletPollErrorPropagated (e : String) (ts : List (Except String Nat)) :
    pollImmediate kubeletStatusCheck (Except.error e :: ts) = some e ∧
    (updateKubeletConfigInternal
        (kubeletEnvWithTicks (Except.error e :: ts))).2.2 = some e ∧
    (∀ ts' : List (Except String Nat), (∀ t ∈ ts', ∃ n, t = Except.ok n) →
      pollImmediate kubeletStatusCheck ts' = none ∨
      pollImmediate kubeletStatusCheck ts' = some errWaitTimeout) := by
  refine ⟨rfl, rfl, ?_⟩
  intro ts'
  induction ts' with
  | nil =>
    intro _
    right
    rfl
  | cons t ts ih =>
    intro hok
    obtain ⟨n, hn⟩ := hok t (List.mem_cons_self t ts)
    subst hn
    cases hc : (n &&& systemDStatusRunning != 0 && n &&& systemDStatusRestarting == 0)
    · have := ih (fun x hx => hok x (List.mem_cons_of_mem _ hx))
      simpa [pollImmediate, kubeletStatusCheck, hc] using this
    · left
      simp [pollImmediate, kubeletStatusCheck, hc]

/-- Witness for C4 (amended): with a single healthy observation the poll
succeeds, and a lone read failure is returned as-is. -/
theorem kubeletPollErrorPropagated_witness :
    pollImmediate kubeletStatusCheck [Except.ok systemDStatusRunning] = none ∨
    pollImmediate kubeletStatusCheck [Except.ok systemDStatusRunning] =
      some errWaitTimeout :=
  (kubeletPollErrorPropagated "io timeout" []).2.2
    [Except.ok systemDStatusRunning]
    (by
      intro t ht
      simp only [List.mem_singleton] at ht
      exact ⟨systemDStatusRunning, ht⟩)

set_option maxRecDepth 10000 in
/-- C5: on a controller-manager rollout timeout the returned error claims
the API server failed — the source wraps both poll failures with the same
"API server failed to come up" message — so the error does not identify
the kube-controller-manager pod.  (The API server half of the claim does
hold, shown by the all-failing-tick run.) -/
theorem regenerateManifests_cmTimeout_bug :
    regenerateControlPlaneManifestsInternal "node-1" cmTimeoutEnv =
      some "API server failed to come up for 2m0s: timed out waiting for the condition" ∧
    ¬("controller-manager".toList <:+:
        "API server failed to come up for 2m0s: timed out waiting for the condition".toList) ∧
    regenerateControlPlaneManifestsInternal "node-1"
        ⟨Except.ok "cmd", none, true, [], []⟩ =
      some "API server failed to come up for 2m0s: timed out waiting for the condition" := by
  refine ⟨rfl, ?_, rfl⟩
  decide

/-- A fully successful run issues one patch per volume matching the
in-tree Cinder filter, in order, and rewrites exactly those volumes. -/
theorem migrateLoop_success (pvs : List PersistentVolume) :
    migrateLoop (fun _ => none) pvs =
      (patchCallsOf pvs, Except.ok (migratedState pvs)) := by
  induction pvs with
  | nil => rfl
  | cons pv rest ih =>
    rw [migrateLoop]
    cases h : pvMatchesInTreeCinder pv <;>
      simp [h, ih, patchCallsOf, migratedState, Except.map]

/-- The first failing patch aborts the loop: the requests issued are those
of the matching volumes already processed plus the failing one, the error
is wrapped with the failing volume's name, and no later volume is
examined. -/
theorem migrateLoop_abort (patch : PatchCall → Option String)
    (pre : List PersistentVolume) (pv : PersistentVolume)
    (rest : List PersistentVolume) (e : String)
    (hpre : ∀ q ∈ pre, pvMatchesInTreeCinder q = true → patch (patchCallFor q) = none)
    (hpv : pvMatchesInTreeCinder pv = true)
    (herr : patch (patchCallFor pv) = some e) :
    migrateLoop patch (pre ++ pv :: rest) =
      (patchCallsOf pre ++ [patchCallFor pv],
        Except.error (patchErrMsg pv.name e)) := by
  induction pre with
  | nil =>
    rw [List.nil_append, migrateLoop]
    simp [hpv, herr, patchCallsOf]
  | cons q qs ih =>
    rw [List.cons_append, migrateLoop]
    have ih' := ih (fun x hx hm => hpre x (List.mem_cons_of_mem _ hx) hm)
    cases hq : pvMatchesInTreeCinder q
    · simp [hq, ih', patchCallsOf, Except.map]
    · have hqnone := hpre q (List.mem_cons_self q qs) hq
      simp [hq, hqnone, ih', patchCallsOf, Except.map]

/-- Looking up a key just assigned returns the assigned value. -/
theorem lookupDefault_setAnn (m : List (String × String)) (k v : String) :
    lookupDefault (setAnn m k v) k = v := by
  induction m with
  | nil => simp [setAnn, lookupDefault]
  | cons p rest ih =>
    obtain ⟨k', v'⟩ := p
    rw [setAnn]
    by_cases h : k' = k
    · simp [h, lookupDefault]
    · simp only [beq_iff_eq, h, if_false]
      rw [lookupDefault, List.find?_cons_of_neg _ (by simp [h])]
      exact ih

/-- A rewritten volume no longer matches the in-tree Cinder filter. -/
theorem migratePv_not_matching (pv : PersistentVolume) :
    pvMatchesInTreeCinder (migratePv pv) = false := by
  simp [pvMatchesInTreeCinder, migratePv, lookupDefault_setAnn,
    provisionedByOpenStackCSICinder, provisionedByOpenStackInTreeCinder]

/-- After a successful run no volume matches the filter any more. -/
theorem migratedState_noMatch (pvs : List PersistentVolume) :
    ∀ q ∈ migratedState pvs, pvMatchesInTreeCinder q = false := by
  intro q hq
  simp only [migratedState, List.mem_map] at hq
  obtain ⟨pv, _, hfq⟩ := hq
  subst hfq
  cases h : pvMatchesInTreeCinder pv
  · simp [h]
  · simp [h, migratePv_not_matching]

/-- A list of non-matching volumes is left untouched by the rewrite map. -/
theorem migratedState_eq_self (l : List PersistentVolume)
    (h : ∀ q ∈ l, pvMatchesInTreeCinder q = false) : migratedState l = l := by
  induction l with
  | nil => rfl
  | cons q rest ih =>
    have h1 := h q (List.mem_cons_self q rest)
    have h2 := ih (fun x hx => h x (List.mem_cons_of_mem _ hx))
    simp [migratedState, h1]
    simpa [migratedState] using h2

/-- C6: `migrateOpenStackPVs` fails on an uninitialized client, wraps a
list failure, patches exactly the volumes whose provisioner annotation is
the in-tree Cinder identifier (one merge-patch per matching volume, built
from the deep-copied baseline and the mutated object, rewriting the
annotation to the CSI identifier), aborts on the first patch failure with
the error wrapped with that volume's name and without touching any later
volume, and on the spec's 2-matching-plus-1-CSI list issues exactly the
two expected patches. -/
theorem migrateOpenStackPVs_spec :
    (∀ patch, migrateOpenStackPVs none patch =
        ([], Except.error "dynamic client is not initialized")) ∧
    (∀ patch e, migrateOpenStackPVs (some (Except.error e)) patch =
        ([], Except.error ("failed to list persistentvolumes: " ++ e))) ∧
    (∀ pvs, migrateOpenStackPVs (some (Except.ok pvs)) (fun _ => none) =
        (patchCallsOf pvs, Except.ok (migratedState pvs))) ∧
    (∀ pv, patchCallFor pv = ⟨pv.name, pv, migratePv pv⟩ ∧
        lookupDefault (migratePv pv).anns provisionedByKey =
          provisionedByOpenStackCSICinder) ∧
    (∀ (patch : PatchCall → Option String) pre pv rest e,
        (∀ q ∈ pre, pvMatchesInTreeCinder q = true → patch (patchCallFor q) = none) →
        pvMatchesInTreeCinder pv = true →
        patch (patchCallFor pv) = some e →
        migrateOpenStackPVs (some (Except.ok (pre ++ pv :: rest))) patch =
          (patchCallsOf pre ++ [patchCallFor pv],
            Except.error (patchErrMsg pv.name e))) ∧
    migrateOpenStackPVs (some (Except.ok scenarioPVs)) (fun _ => none) =
      ([patchCallFor ⟨"pv-a", [(provisionedByKey, provisionedByOpenStackInTreeCinder)]⟩,
        patchCallFor ⟨"pv-c", [(provisionedByKey, provisionedByOpenStackInTreeCinder)]⟩],
        Except.ok (migratedState scenarioPVs)) := by
  refine ⟨fun _ => rfl, fun _ _ => rfl, migrateLoop_success, ?_, ?_, rfl⟩
  · intro pv
    exact ⟨rfl, by rw [migratePv, lookupDefault_setAnn]⟩
  · intro patch pre pv rest e hpre hpv herr
    exact migrateLoop_abort patch pre pv rest e hpre hpv herr

/-- Witness for C6: a patch conflict on the only matching volume aborts
with the wrapped error after exactly that one patch request. -/
theorem migrateOpenStackPVs_spec_witness :
    migrateOpenStackPVs
        (some (Except.ok
          [(⟨"pv-a", [(provisionedByKey, provisionedByOpenStackInTreeCinder)]⟩ :
            PersistentVolume)]))
        (fun _ => some "conflict") =
      ([patchCallFor ⟨"pv-a", [(provisionedByKey, provisionedByOpenStackInTreeCinder)]⟩],
        Except.error (patchErrMsg "pv-a" "conflict")) :=
  migrateOpenStackPVs_spec.2.2.2.2.1 (fun _ => some "conflict") []
    ⟨"pv-a", [(provisionedByKey, provisionedByOpenStackInTreeCinder)]⟩ [] "conflict"
    (fun q hq => absurd hq (List.not_mem_nil q)) rfl rfl

/-- C7: `migrateOpenStackPVs` is idempotent — after a successful run, a
second run issues zero patch requests and leaves the final annotation
state unchanged, because rewritten volumes no longer match the filter. -/
theorem migrateOpenStackPVs_idempotent (pvs : List PersistentVolume)
    (calls1 : List PatchCall) (pvs1 : List PersistentVolume)
    (h : migrateOpenStackPVs (some (Except.ok pvs)) (fun _ => none) =
      (calls1, Except.ok pvs1)) :
    migrateOpenStackPVs (some (Except.ok pvs1)) (fun _ => none) =
      ([], Except.ok pvs1) := by
  have hs : migrateOpenStackPVs (some (Except.ok pvs)) (fun _ => none) =
      (patchCallsOf pvs, Except.ok (migratedState pvs)) := migrateLoop_success pvs
  rw [hs] at h
  have h2 : (Except.ok (migratedState pvs) : Except String (List PersistentVolume)) =
      Except.ok pvs1 := congrArg Prod.snd h
  have h3 : migratedState pvs = pvs1 := by injection h2
  subst h3
  have hfilter : (migratedState pvs).filter pvMatchesInTreeCinder = [] :=
    List.filter_eq_nil_iff.mpr (fun a ha => by simp [migratedState_noMatch pvs a ha])
  calc migrateOpenStackPVs (some (Except.ok (migratedState pvs))) (fun _ => none)
      = (patchCallsOf (migratedState pvs),
          Except.ok (migratedState (migratedState pvs))) := migrateLoop_success _
    _ = ([], Except.ok (migratedState pvs)) := by
        rw [patchCallsOf, hfilter, List.map_nil,
          migratedState_eq_self _ (migratedState_noMatch pvs)]

/-- Witness for C7: rerunning on the already-migrated scenario list
patches nothing and leaves the state unchanged. -/
theorem migrateOpenStackPVs_idempotent_witness :
    migrateOpenStackPVs (some (Except.ok (migratedState scenarioPVs))) (fun _ => none) =
      ([], Except.ok (migratedState scenarioPVs)) :=
  migrateOpenStackPVs_idempotent scenarioPVs (patchCallsOf scenarioPVs)
    (migratedState scenarioPVs) rfl

/-- C10: a volume with no annotation map at all is skipped without error
and without a patch request — the annotation lookup yields the empty
string, which fails the in-tree Cinder filter, and the loop passes the
volume through untouched. -/
theorem migratePVs_total_nilAnns (patch : PatchCall → Option String)
    (pv : PersistentVolume) (h : pv.anns = []) :
    lookupDefault pv.anns provisionedByKey = "" ∧
    pvMatchesInTreeCinder pv = false ∧
    ∀ rest, migrateLoop patch (pv :: rest) =
      ((migrateLoop patch rest).1,
        (migrateLoop patch rest).2.map (fun pvs => pv :: pvs)) := by
  have h0 : lookupDefault pv.anns provisionedByKey = "" := by
    rw [h]; rfl
  have hm : pvMatchesInTreeCinder pv = false := by
    rw [pvMatchesInTreeCinder, h0]; rfl
  refine ⟨h0, hm, fun rest => ?_⟩
  rw [migrateLoop]
  simp [hm]

/-- Witness for C10: a single annotation-free volume passes through the
loop untouched. -/
theorem migratePVs_total_nilAnns_witness :
    migrateLoop (fun _ => none) [(⟨"pv-nil", []⟩ : PersistentVolume)] =
      ((migrateLoop (fun _ => none) ([] : List PersistentVolume)).1,
        (migrateLoop (fun _ => none) ([] : List PersistentVolume)).2.map
          (fun pvs => (⟨"pv-nil", []⟩ : PersistentVolume) :: pvs)) :=
  (migratePVs_total_nilAnns (fun _ => none) ⟨"pv-nil", []⟩ rfl).2.2 []

end KubeOneMigration
